import Mathlib

/-!
Verification development for the audia capture-to-spectrum pipeline.

This file gives a shallow embedding of the core of the repository:
* the sample accumulator and per-window analysis loop of
  `Audia::update_state` (src/ui/mod.rs),
* the peak-extraction fold and the display-amplitude scaling of the same
  function,
* the `CpalEngine` state machine (src/engine/mod.rs): host/device
  selection, device enumeration, and the recording lifecycle
  (`start_recording` / `run_stream` / `stop_recording`),
* the UI-level guard `Audia::start_streaming` (src/ui/mod.rs).

Audio samples (`f32` in the source) are modelled as rationals; the
platform layer (cpal) is modelled as an explicit environment record, and
panics raised through `.expect(..)` in the source are modelled as the
`Except.error` branch carrying the panic message.
-/

namespace Audia

/-- Sample type: the source's `SampleType = f32`, modelled as `ℚ`. -/
abbrev Sample := ℚ

/-- Constant `RECEIVE_PACKET_SIZE: usize = 256` from src/ui/mod.rs —
the analysis window size used by `Audia::update_state`. -/
def RECEIVE_PACKET_SIZE : Nat := 256

/-- The `while self.spectrogram.current_buf.len() >= RECEIVE_PACKET_SIZE`
loop of `Audia::update_state`, restricted to its effect on the buffer:
repeatedly remove (`drain(0..RECEIVE_PACKET_SIZE)`) the oldest
`RECEIVE_PACKET_SIZE` samples as one window.  The loop consumes at least
one sample per iteration, so `fuel = buf.length` always suffices; the
fuel only bounds the recursion depth. Returns (windows emitted in order,
remaining buffer). -/
def drainWindowsAux : Nat → List Sample → List (List Sample) × List Sample
  | 0, buf => ([], buf)
  | fuel + 1, buf =>
    if RECEIVE_PACKET_SIZE ≤ buf.length then
      let r := drainWindowsAux fuel (buf.drop RECEIVE_PACKET_SIZE)
      (buf.take RECEIVE_PACKET_SIZE :: r.1, r.2)
    else ([], buf)

/-- Windows emitted and buffer remaining after the drain loop runs on
`buf` until fewer than `RECEIVE_PACKET_SIZE` samples remain. -/
def drainWindows (buf : List Sample) : List (List Sample) × List Sample :=
  drainWindowsAux buf.length buf

/-- One `Audia::update_state` call, buffer view: `current_buf.append(packet)`
followed by the drain loop.  Returns (windows emitted by this call,
new buffer contents). -/
def updateBuffer (buf packet : List Sample) : List (List Sample) × List Sample :=
  drainWindows (buf ++ packet)

/-- One packet arriving while `acc.1` windows have been emitted and
`acc.2` is buffered: run `updateBuffer` and collect the new windows. -/
def stepPW (acc : List (List Sample) × List Sample) (p : List Sample) :
    List (List Sample) × List Sample :=
  (acc.1 ++ (updateBuffer acc.2 p).1, (updateBuffer acc.2 p).2)

/-- Feeding a sequence of packets through `Audia::update_state` starting
from an empty buffer, collecting every window emitted across all calls
together with the final buffer contents. -/
def processPackets (ps : List (List Sample)) : List (List Sample) × List Sample :=
  ps.foldl stepPW ([], [])

/-- The peak-extraction fold of `Audia::update_state`
(src/ui/mod.rs:112-118):
`points.iter().fold((0, 0.0), |a, b| if a.1 >= b.1 { a } else { *b })`.
A point is a `(frequency as i32, scaled amplitude)` pair. -/
def peakFold (points : List (Int × Sample)) : Int × Sample :=
  points.foldl (fun a b => if b.2 ≤ a.2 then a else b) (0, 0)

/-- The display scaling applied when building the points list
(src/ui/mod.rs:105-109): every amplitude is multiplied by the fixed
display multiplier `2048.0`. -/
def displayScale (points : List (Int × Sample)) : List (Int × Sample) :=
  points.map (fun p => (p.1, p.2 * 2048))

/-- Amplitude scaling by an arbitrary factor, used to relate the fixed
`2048.0` multiplier to the general positive-scaling property. -/
def scaleAmps (c : Sample) (points : List (Int × Sample)) : List (Int × Sample) :=
  points.map (fun p => (p.1, p.2 * c))

/-- Modelled from the spec: "Extract the Peak: the (frequency, amplitude)
pair with the strictly greatest amplitude; tie-break ... first occurrence
in ascending-frequency order".  Given the points in ascending-frequency
order, returns the first pair attaining the maximum amplitude (`none` on
an empty spectrum).  This is the spec-side definition that the source's
`peakFold` is compared against. -/
def firstMaxPair : List (Int × Sample) → Option (Int × Sample)
  | [] => none
  | p :: ps =>
    match firstMaxPair ps with
    | none => some p
    | some q => if q.2 ≤ p.2 then some p else some q

/-- The `Spectrogram` struct fields touched by `Audia::update_state`
(src/ui/spectrogram.rs, src/ui/mod.rs): `user_data` counts samples
consumed into windows, `current_buf` is the sample buffer, `freq_data`
the last points list, `peak_freq` the last extracted peak frequency. -/
structure Spectrogram where
  user_data : Nat
  current_buf : List Sample
  freq_data : List (Int × Sample)
  peak_freq : Sample
  deriving Repr

/-- Constructor `Spectrogram::new()`: zero counter, empty buffer (freq_data and
peak_freq start empty/zero). -/
def Spectrogram.new : Spectrogram :=
  { user_data := 0, current_buf := [], freq_data := [], peak_freq := 0 }

/-- Body of the `while` loop of `Audia::update_state`, one full state
view.  `analyze` abstracts the external spectrum computation
(`hann_window` + `samples_fft_to_spectrum` + the point mapping with the
`* 2048.0` display scaling), producing the points list from one window.
Each iteration: drain one window, add `RECEIVE_PACKET_SIZE` to
`user_data`, recompute `freq_data` (the source's `clear()` followed by
reassignment collapses to assignment) and `peak_freq` from the fold. -/
def updateStateLoop (analyze : List Sample → List (Int × Sample)) :
    Nat → Spectrogram → Spectrogram
  | 0, sg => sg
  | fuel + 1, sg =>
    if RECEIVE_PACKET_SIZE ≤ sg.current_buf.length then
      let current_packet := sg.current_buf.take RECEIVE_PACKET_SIZE
      let points := analyze current_packet
      updateStateLoop analyze fuel
        { user_data := sg.user_data + RECEIVE_PACKET_SIZE
          current_buf := sg.current_buf.drop RECEIVE_PACKET_SIZE
          freq_data := points
          peak_freq := ((peakFold points).1 : ℚ) }
    else sg

/-- Function `Audia::update_state(packet)`: append the packet to the buffer, then
run the drain-and-analyze loop to exhaustion. -/
def updateState (analyze : List Sample → List (Int × Sample))
    (sg : Spectrogram) (packet : List Sample) : Spectrogram :=
  let sg1 := { sg with current_buf := sg.current_buf ++ packet }
  updateStateLoop analyze sg1.current_buf.length sg1

/- ### Engine model (src/engine/mod.rs) -/

/-- A built platform stream (`cpal::Stream`): it owns the producer side
of the channel it was built over (`chan` is the channel's identity) and
carries whether `stream.play()` will succeed (`playError = none`) or
fail with the given platform error message. -/
structure StreamM where
  chan : Nat
  playError : Option String
  deriving Repr, DecidableEq

/-- A platform input device (`cpal::Device`) as observed by the engine:
`name` is `device.name()` (`none` models the error case),
`hasDefaultInputConfig` is whether `device.default_input_config()`
returns `Ok`, and `buildError` is the error of
`device.build_input_stream(..)` (`none` = the stream is built). -/
structure DeviceM where
  name : Option String
  hasDefaultInputConfig : Bool
  buildError : Option String
  playError : Option String
  deriving Repr, DecidableEq

/-- A resolved platform host (`cpal::Host`): `inputDevices` is the result
of `host.input_devices()`, `none` modelling the error that the source
turns into a panic via `.expect(..)`. -/
structure HostM where
  inputDevices : Option (List DeviceM)

/-- The cpal platform as consulted by the engine: the list of host names
returned by `cpal::available_hosts()` (a `HostId` is identified with its
name, which is how the source matches hosts), and `hostFromId`, the
result of `cpal::host_from_id` (`none` = the id does not resolve to a
live backend handle, which the source turns into a panic). -/
structure Platform where
  availableHosts : List String
  hostFromId : String → Option HostM

/-- The `CpalEngine` state (src/engine/mod.rs:45-49).  `nextChan` is the
ghost counter modelling freshness of `crossbeam_channel::unbounded()`:
each channel ever created gets the counter's value as its identity and
the counter is incremented, so a newly created channel is distinct from
every previously created one. -/
structure CpalEngine where
  current_host : Option String
  current_input_device : Option DeviceM
  current_stream : Option StreamM
  nextChan : Nat
  deriving Repr, DecidableEq

/-- Constructor `CpalEngine::new()`: no host, no device, no stream. -/
def CpalEngine.new : CpalEngine :=
  { current_host := none, current_input_device := none,
    current_stream := none, nextChan := 0 }

/-- Struct `AudioStream` (src/engine/mod.rs:226-241): holds the consumer
(receiver) side of a capture channel, identified by the channel id. -/
structure AudioStream where
  rx : Nat
  deriving Repr, DecidableEq

/-- Error type `AudiaError` is a plain message string in the source.  The engine
creates it at exactly four sites with four distinct messages; each
constructor stands for one site, carrying the platform error detail the
source formats into the message where there is one. -/
inductive AudiaError where
  /-- `AudiaError::from("No input device is selected")` -/
  | noInputDevice : AudiaError
  /-- `AudiaError::from("Could not find default input config")` -/
  | configUnavailable : AudiaError
  /-- `AudiaError::from(format!("Failed to create audio stream: {error:?}"))` -/
  | streamCreateFailed (detail : String) : AudiaError
  /-- `AudiaError::from(format!("Failed to run stream: {error:?}"))` -/
  | runStreamFailed (detail : String) : AudiaError
  deriving Repr, DecidableEq

/-- The `message` field of the source's `AudiaError` for each creation
site. -/
def AudiaError.message : AudiaError → String
  | .noInputDevice => "No input device is selected"
  | .configUnavailable => "Could not find default input config"
  | .streamCreateFailed e => "Failed to create audio stream: " ++ e
  | .runStreamFailed e => "Failed to run stream: " ++ e

/-- Method `CpalEngine::use_host` (src/engine/mod.rs:100-107): scan
`cpal::available_hosts()`; every host whose name equals the argument is
stored as the current host (the loop keeps overwriting, so the last
match wins).  Nothing else — in particular not the device selection —
is touched. -/
def use_host (p : Platform) (st : CpalEngine) (host_id : String) : CpalEngine :=
  { st with
    current_host :=
      p.availableHosts.foldl
        (fun acc h => if h = host_id then some h else acc)
        st.current_host }

/-- Method `CpalEngine::get_input_devices` (src/engine/mod.rs:109-120).  With a
current host: resolve it (`cpal::host_from_id(..).expect(..)` — a
failure is a panic, modelled as `Except.error` with the panic message),
enumerate its input devices (again `.expect(..)`), and return their
names in order, a failing `device.name()` shown as "No device name".
With no current host: return the empty list without consulting the
platform. -/
def get_input_devices (p : Platform) (st : CpalEngine) :
    Except String (List String) :=
  match st.current_host with
  | none => .ok []
  | some host_id =>
    match p.hostFromId host_id with
    | none => .error "Could not open audio host"
    | some host =>
      match host.inputDevices with
      | none => .error "Could not find input devices on host"
      | some devices => .ok (devices.map (fun d => d.name.getD "No device name"))

/-- Method `CpalEngine::use_input_device` (src/engine/mod.rs:128-138).  With no
current host: do nothing.  Otherwise resolve the host and its devices
(`.expect(..)` panics modelled as `Except.error`), and store every
device whose `name()` equals the argument (errors in `name()` count as
no match); the loop keeps overwriting, so the last match wins and the
selection is unchanged when nothing matches. -/
def use_input_device (p : Platform) (st : CpalEngine) (device_name : String) :
    Except String CpalEngine :=
  match st.current_host with
  | none => .ok st
  | some host_id =>
    match p.hostFromId host_id with
    | none => .error "Could not open audio host"
    | some host =>
      match host.inputDevices with
      | none => .error "Could not open input devices on host"
      | some devices =>
        .ok { st with
              current_input_device :=
                devices.foldl
                  (fun acc d => if d.name = some device_name then some d else acc)
                  st.current_input_device }

/-- Method `CpalEngine::run_stream` (src/engine/mod.rs:63-72): try
`stream.play()`; on failure return the error and leave the engine state
unchanged (the stream is dropped); on success store the stream as
current and return the `AudioStream` wrapping the receiver. -/
def run_stream (st : CpalEngine) (stream : StreamM) (rx : Nat) :
    CpalEngine × Except AudiaError AudioStream :=
  match stream.playError with
  | some e => (st, .error (.runStreamFailed e))
  | none => ({ st with current_stream := some stream }, .ok { rx := rx })

/-- Method `CpalEngine::start_recording` (src/engine/mod.rs:140-186).  No
selected device → `Err("No input device is selected")`.  Otherwise, no
default input config → `Err("Could not find default input config")`.
Otherwise a fresh channel is created (`crossbeam_channel::unbounded()`,
modelled by the `nextChan` counter) and the stream is built over its
producer side: a build failure is returned as the stream-create error,
and a built stream is handed to `run_stream`.  There is no check of
`current_stream` anywhere on this path. -/
def start_recording (st : CpalEngine) : CpalEngine × Except AudiaError AudioStream :=
  match st.current_input_device with
  | none => (st, .error .noInputDevice)
  | some device =>
    if device.hasDefaultInputConfig then
      let chan := st.nextChan
      let st1 := { st with nextChan := st.nextChan + 1 }
      match device.buildError with
      | some e => (st1, .error (.streamCreateFailed e))
      | none => run_stream st1 { chan := chan, playError := device.playError } chan
    else (st, .error .configUnavailable)

/-- Method `CpalEngine::stop_recording` (src/engine/mod.rs:188-197): swap the
current stream out and drop it if there was one; the only state change
is that `current_stream` becomes `None`.  The function returns unit and
can raise no error. -/
def stop_recording (st : CpalEngine) : CpalEngine :=
  { st with current_stream := none }

/-- The fields of the UI application `Audia` (src/ui/mod.rs:39-43)
relevant to the streaming lifecycle: the engine inside `audio_system`
and the UI's own handle to the live stream. -/
structure AudiaUI where
  engine : CpalEngine
  current_stream : Option AudioStream
  deriving Repr, DecidableEq

/-- Method `Audia::start_streaming` (src/ui/mod.rs:46-62): if a stream handle
is already held, only log ("Stream is already running") and change
nothing; otherwise call `engine.start_recording()` and store the
returned handle on success (on failure only log). -/
def AudiaUI.start_streaming (a : AudiaUI) : AudiaUI :=
  match a.current_stream with
  | some _ => a
  | none =>
    let r := start_recording a.engine
    match r.2 with
    | .ok s => { engine := r.1, current_stream := some s }
    | .error _ => { engine := r.1, current_stream := none }

/- ### Helper lemmas: sample accumulator -/

/-- Sufficient fuel: the drain loop returns windows of exactly
`RECEIVE_PACKET_SIZE` samples whose concatenation, followed by the
remaining buffer, is the input buffer; fewer than a window's worth of
samples remain. -/
theorem drainWindowsAux_spec (fuel : Nat) :
    ∀ buf : List Sample, buf.length ≤ fuel →
      (drainWindowsAux fuel buf).1.flatten ++ (drainWindowsAux fuel buf).2 = buf
      ∧ (∀ w ∈ (drainWindowsAux fuel buf).1, w.length = RECEIVE_PACKET_SIZE)
      ∧ (drainWindowsAux fuel buf).2.length < RECEIVE_PACKET_SIZE := by
  induction fuel with
  | zero =>
    intro buf h
    have hb : buf = [] := List.length_eq_zero.mp (Nat.le_zero.mp h)
    subst hb
    refine ⟨rfl, by simp [drainWindowsAux], by simp [drainWindowsAux, RECEIVE_PACKET_SIZE]⟩
  | succ n ih =>
    intro buf h
    by_cases hb : RECEIVE_PACKET_SIZE ≤ buf.length
    · have hd : (buf.drop RECEIVE_PACKET_SIZE).length ≤ n := by
        rw [List.length_drop]
        have : 1 ≤ RECEIVE_PACKET_SIZE := by norm_num [RECEIVE_PACKET_SIZE]
        omega
      obtain ⟨h1, h2, h3⟩ := ih (buf.drop RECEIVE_PACKET_SIZE) hd
      simp only [drainWindowsAux, if_pos hb]
      refine ⟨?_, ?_, h3⟩
      · rw [List.flatten_cons, List.append_assoc, h1, List.take_append_drop]
      · intro w hw
        rcases List.mem_cons.mp hw with hw | hw
        · subst hw
          rw [List.length_take]
          omega
        · exact h2 w hw
    · simp only [drainWindowsAux, if_neg hb]
      exact ⟨by simp, by simp, by omega⟩

/-- Packaged form of `drainWindowsAux_spec` for `drainWindows`. -/
theorem drainWindows_spec (buf : List Sample) :
    (drainWindows buf).1.flatten ++ (drainWindows buf).2 = buf
    ∧ (∀ w ∈ (drainWindows buf).1, w.length = RECEIVE_PACKET_SIZE)
    ∧ (drainWindows buf).2.length < RECEIVE_PACKET_SIZE :=
  drainWindowsAux_spec buf.length buf (le_refl _)

/-- Concatenating windows of a fixed length: total length. -/
theorem join_length_of_uniform (k : Nat) :
    ∀ l : List (List Sample), (∀ w ∈ l, w.length = k) →
      l.flatten.length = l.length * k := by
  intro l
  induction l with
  | nil => intro _; simp
  | cons w t ih =>
    intro h
    have hw : w.length = k := h w (List.mem_cons_self _ _)
    have ht : ∀ x ∈ t, x.length = k := fun x hx => h x (List.mem_cons_of_mem _ hx)
    simp [List.flatten, hw, ih ht, Nat.succ_mul, Nat.add_comm]

/-- Invariant of the packet-processing fold: windows collected so far,
joined, followed by the current buffer, always equal everything ever
appended. -/
theorem processPackets_invariant (ps : List (List Sample)) :
    ∀ ws : List (List Sample), ∀ buf : List Sample,
      (ps.foldl stepPW (ws, buf)).1.flatten ++ (ps.foldl stepPW (ws, buf)).2
        = ws.flatten ++ buf ++ ps.flatten
      ∧ (∀ w ∈ (ps.foldl stepPW (ws, buf)).1,
          w ∈ ws ∨ w.length = RECEIVE_PACKET_SIZE) := by
  induction ps with
  | nil => intro ws buf; exact ⟨by simp [List.append_assoc], fun w hw => Or.inl hw⟩
  | cons p t ih =>
    intro ws buf
    obtain ⟨d1, d2, _⟩ := drainWindows_spec (buf ++ p)
    obtain ⟨i1, i2⟩ := ih (ws ++ (drainWindows (buf ++ p)).1) (drainWindows (buf ++ p)).2
    have hstep : stepPW (ws, buf) p
        = (ws ++ (drainWindows (buf ++ p)).1, (drainWindows (buf ++ p)).2) := rfl
    constructor
    · have d1' : (drainWindows (buf ++ p)).1.flatten
          ++ ((drainWindows (buf ++ p)).2 ++ t.flatten)
          = buf ++ (p ++ t.flatten) := by
        rw [← List.append_assoc, d1, List.append_assoc]
      rw [List.foldl_cons, hstep, i1]
      simp only [List.flatten_append, List.flatten_cons, List.append_assoc, d1']
    · intro w hw
      rw [List.foldl_cons, hstep] at hw
      rcases i2 w hw with hmem | hlen
      · rcases List.mem_append.mp hmem with h | h
        · exact Or.inl h
        · exact Or.inr (d2 w h)
      · exact Or.inr hlen

/-- Every window `processPackets` emits has exactly
`RECEIVE_PACKET_SIZE` samples, and joining the windows and appending the
final buffer restores the concatenation of all packets. -/
theorem processPackets_spec (ps : List (List Sample)) :
    (processPackets ps).1.flatten ++ (processPackets ps).2 = ps.flatten
    ∧ ∀ w ∈ (processPackets ps).1, w.length = RECEIVE_PACKET_SIZE := by
  obtain ⟨h1, h2⟩ := processPackets_invariant ps [] []
  refine ⟨by simpa using h1, fun w hw => ?_⟩
  rcases h2 w hw with h | h
  · simp at h
  · exact h

/-- One pass of the drain-and-analyze loop tracks `drainWindowsAux` on
the buffer and counts the consumed samples in `user_data`. -/
theorem updateStateLoop_tracks (analyze : List Sample → List (Int × Sample)) (fuel : Nat) :
    ∀ sg : Spectrogram,
      (updateStateLoop analyze fuel sg).current_buf
          = (drainWindowsAux fuel sg.current_buf).2
      ∧ (updateStateLoop analyze fuel sg).user_data
          = sg.user_data
            + RECEIVE_PACKET_SIZE * (drainWindowsAux fuel sg.current_buf).1.length := by
  induction fuel with
  | zero => intro sg; simp [updateStateLoop, drainWindowsAux]
  | succ n ih =>
    intro sg
    by_cases hb : RECEIVE_PACKET_SIZE ≤ sg.current_buf.length
    · simp only [updateStateLoop, drainWindowsAux, if_pos hb]
      obtain ⟨b1, b2⟩ := ih
        { user_data := sg.user_data + RECEIVE_PACKET_SIZE
          current_buf := sg.current_buf.drop RECEIVE_PACKET_SIZE
          freq_data := analyze (sg.current_buf.take RECEIVE_PACKET_SIZE)
          peak_freq := ((peakFold (analyze (sg.current_buf.take RECEIVE_PACKET_SIZE))).1 : ℚ) }
      refine ⟨b1, ?_⟩
      rw [b2]
      simp only [List.length_cons]
      ring
    · simp [updateStateLoop, drainWindowsAux, if_neg hb]

/-- One `updateState` call tracks `updateBuffer` on the buffer and adds
`RECEIVE_PACKET_SIZE` per emitted window to `user_data`. -/
theorem updateState_tracks (analyze : List Sample → List (Int × Sample))
    (sg : Spectrogram) (packet : List Sample) :
    (updateState analyze sg packet).current_buf
        = (updateBuffer sg.current_buf packet).2
    ∧ (updateState analyze sg packet).user_data
        = sg.user_data
          + RECEIVE_PACKET_SIZE * (updateBuffer sg.current_buf packet).1.length := by
  simpa [updateState, updateBuffer, drainWindows] using
    updateStateLoop_tracks analyze (sg.current_buf ++ packet).length
      { sg with current_buf := sg.current_buf ++ packet }

/-- Folding `updateState` over a packet sequence tracks the
window-collecting fold: the buffer coincides and `user_data` counts
`RECEIVE_PACKET_SIZE` samples per window emitted so far. -/
theorem updateState_fold_tracks (analyze : List Sample → List (Int × Sample))
    (ps : List (List Sample)) :
    ∀ (sg : Spectrogram) (ws : List (List Sample)),
      sg.user_data = RECEIVE_PACKET_SIZE * ws.length →
      (ps.foldl (updateState analyze) sg).current_buf
          = (ps.foldl stepPW (ws, sg.current_buf)).2
      ∧ (ps.foldl (updateState analyze) sg).user_data
          = RECEIVE_PACKET_SIZE
            * (ps.foldl stepPW (ws, sg.current_buf)).1.length := by
  induction ps with
  | nil => intro sg ws h; exact ⟨rfl, h⟩
  | cons p t ih =>
    intro sg ws h
    obtain ⟨u1, u2⟩ := updateState_tracks analyze sg p
    have hnext : (updateState analyze sg p).user_data
        = RECEIVE_PACKET_SIZE * (ws ++ (updateBuffer sg.current_buf p).1).length := by
      rw [u2, h, List.length_append]
      ring
    obtain ⟨f1, f2⟩ := ih (updateState analyze sg p)
      (ws ++ (updateBuffer sg.current_buf p).1) hnext
    simp only [List.foldl_cons]
    rw [u1] at f1 f2
    exact ⟨f1, f2⟩

/- ### Helper lemmas: peak extraction -/

/-- Helper: `firstMaxPair` returns `none` only on the empty list. -/
theorem firstMaxPair_eq_none (l : List (Int × Sample)) :
    firstMaxPair l = none ↔ l = [] := by
  cases l with
  | nil => simp [firstMaxPair]
  | cons p t =>
    simp only [firstMaxPair]
    cases firstMaxPair t with
    | none => simp
    | some q => by_cases h : q.2 ≤ p.2 <;> simp [h]

/-- The pair `firstMaxPair` returns has maximal amplitude. -/
theorem firstMaxPair_isMax :
    ∀ (l : List (Int × Sample)) (q : Int × Sample), firstMaxPair l = some q →
      ∀ p ∈ l, p.2 ≤ q.2 := by
  intro l
  induction l with
  | nil => intro q h; simp [firstMaxPair] at h
  | cons b t ih =>
    intro q h p hp
    cases hmt : firstMaxPair t with
    | none =>
      have ht : t = [] := (firstMaxPair_eq_none t).mp hmt
      subst ht
      simp only [firstMaxPair] at h
      injection h with h
      subst h
      rcases List.mem_cons.mp hp with hpb | hpt
      · subst hpb; exact le_refl _
      · simp at hpt
    | some m =>
      simp only [firstMaxPair, hmt] at h
      by_cases hmb : m.2 ≤ b.2
      · rw [if_pos hmb] at h
        injection h with h; subst h
        rcases List.mem_cons.mp hp with hpb | hpt
        · subst hpb; exact le_refl _
        · exact le_trans (ih m hmt p hpt) hmb
      · rw [if_neg hmb] at h
        injection h with h
        rcases List.mem_cons.mp hp with hpb | hpt
        · subst hpb; rw [← h]; exact le_of_not_le hmb
        · rw [← h]; exact ih m hmt p hpt

/-- Helper: `firstMaxPair` absorbs one step of the source's fold: folding the
accumulator into the head of the list does not change the selected
pair. -/
theorem firstMaxPair_absorb (acc b : Int × Sample) (t : List (Int × Sample)) :
    firstMaxPair ((if b.2 ≤ acc.2 then acc else b) :: t)
      = firstMaxPair (acc :: b :: t) := by
  cases hmt : firstMaxPair t with
  | none =>
    by_cases hba : b.2 ≤ acc.2 <;> simp [firstMaxPair, hmt, hba]
  | some q =>
    by_cases hba : b.2 ≤ acc.2
    · by_cases hqb : q.2 ≤ b.2
      · simp [firstMaxPair, hmt, hba, hqb, le_trans hqb hba]
      · simp [firstMaxPair, hmt, hba, hqb]
    · by_cases hqb : q.2 ≤ b.2
      · simp [firstMaxPair, hmt, hba, hqb]
      · have hqa : ¬ q.2 ≤ acc.2 := fun hc => hqb (le_trans hc (le_of_not_le hba))
        simp [firstMaxPair, hmt, hba, hqb, hqa]

/-- The source's `fold` over any accumulator computes `firstMaxPair` of
the accumulator consed onto the points list. -/
theorem peakFold_foldl_firstMax :
    ∀ (l : List (Int × Sample)) (acc : Int × Sample),
      some (l.foldl (fun a b => if b.2 ≤ a.2 then a else b) acc)
        = firstMaxPair (acc :: l) := by
  intro l
  induction l with
  | nil => intro acc; simp [firstMaxPair]
  | cons b t ih =>
    intro acc
    rw [List.foldl_cons, ih (if b.2 ≤ acc.2 then acc else b), firstMaxPair_absorb]

/-- Whenever some point has strictly positive amplitude, the initial
`(0, 0.0)` accumulator of the source's fold cannot win, and the fold
returns exactly the first maximum-amplitude pair. -/
theorem peakFold_eq_firstMax (points : List (Int × Sample))
    (h : ∃ p ∈ points, 0 < p.2) :
    some (peakFold points) = firstMaxPair points := by
  obtain ⟨p, hp, hpos⟩ := h
  cases hmp : firstMaxPair points with
  | none =>
    rw [firstMaxPair_eq_none] at hmp
    subst hmp
    simp at hp
  | some q =>
    have hq : p.2 ≤ q.2 := firstMaxPair_isMax points q hmp p hp
    have hqpos : ¬ q.2 ≤ (0 : Sample) :=
      not_le.mpr (lt_of_lt_of_le hpos hq)
    have hfold := peakFold_foldl_firstMax points ((0 : Int), (0 : Sample))
    rw [show peakFold points
          = points.foldl (fun a b => if b.2 ≤ a.2 then a else b)
              ((0 : Int), (0 : Sample)) from rfl,
        hfold]
    simp [firstMaxPair, hmp, hqpos]

/-- Scaling every amplitude by a positive factor commutes with the
source's peak fold (the accumulator scales along). -/
theorem scale_fold (c : Sample) (hc : 0 < c) :
    ∀ (l : List (Int × Sample)) (acc : Int × Sample),
      (l.map (fun p => (p.1, p.2 * c))).foldl
          (fun a b => if b.2 ≤ a.2 then a else b) (acc.1, acc.2 * c)
        = ((l.foldl (fun a b => if b.2 ≤ a.2 then a else b) acc).1,
           (l.foldl (fun a b => if b.2 ≤ a.2 then a else b) acc).2 * c) := by
  intro l
  induction l with
  | nil => intro acc; rfl
  | cons b t ih =>
    intro acc
    simp only [List.map_cons, List.foldl_cons]
    by_cases hba : b.2 ≤ acc.2
    · rw [if_pos (by exact (mul_le_mul_right hc).mpr hba), if_pos hba]
      exact ih acc
    · rw [if_neg (fun hcon => hba ((mul_le_mul_right hc).mp hcon)), if_neg hba]
      exact ih b

/- ### Helper lemmas: host-selection folds -/

/-- The host/device selection loop keeps the prior selection when
nothing matches. -/
theorem foldl_select_not_mem {α : Type} [DecidableEq α] (n : α) :
    ∀ (l : List α) (init : Option α), n ∉ l →
      l.foldl (fun acc h => if h = n then some h else acc) init = init := by
  intro l
  induction l with
  | nil => intro init _; rfl
  | cons h t ih =>
    intro init hn
    have hh : ¬ (h = n) := fun he => hn (by rw [← he]; exact List.mem_cons_self h t)
    rw [List.foldl_cons, if_neg hh]
    exact ih init (fun ht => hn (List.mem_cons_of_mem h ht))

/-- The host/device selection loop ends on the sought value whenever the
value occurs in the scanned list (the last match wins, and every match
stores the same value). -/
theorem foldl_select_mem {α : Type} [DecidableEq α] (n : α) :
    ∀ (l : List α) (init : Option α), n ∈ l →
      l.foldl (fun acc h => if h = n then some h else acc) init = some n := by
  intro l
  induction l with
  | nil => intro init hn; simp at hn
  | cons h t ih =>
    intro init hn
    rw [List.foldl_cons]
    by_cases hh : h = n
    · rw [if_pos hh, hh]
      by_cases hmem : n ∈ t
      · exact ih (some n) hmem
      · exact foldl_select_not_mem n t (some n) hmem
    · have hmem : n ∈ t := by
        rcases List.mem_cons.mp hn with h1 | h1
        · exact absurd h1.symm hh
        · exact h1
      rw [if_neg hh]
      exact ih init hmem

/- ### Concrete fixtures used by witnesses and counterexamples -/

/-- A device on which every platform call succeeds. -/
def devGood : DeviceM :=
  { name := some "Mic", hasDefaultInputConfig := true,
    buildError := none, playError := none }

/-- Engine that has selected host "A" and the good device, not
recording; five channels have been created before. -/
def engReady : CpalEngine :=
  { current_host := some "A", current_input_device := some devGood,
    current_stream := none, nextChan := 5 }

/-- Engine that is currently recording over channel 0. -/
def engLive : CpalEngine :=
  { current_host := some "A", current_input_device := some devGood,
    current_stream := some { chan := 0, playError := none }, nextChan := 1 }

/-- Platform exposing hosts "A" and "B", none of which resolves. -/
def hostAB : Platform :=
  { availableHosts := ["A", "B"], hostFromId := fun _ => none }

/-- Engine with host "A" selected and a device selection in place. -/
def engHostA : CpalEngine :=
  { current_host := some "A", current_input_device := some devGood,
    current_stream := none, nextChan := 0 }

/-- Platform with a single host "A" that does not resolve to a live
backend handle. -/
def pBad : Platform :=
  { availableHosts := ["A"], hostFromId := fun _ => none }

/-- Platform with a single host "A" resolving to one good device. -/
def pGood : Platform :=
  { availableHosts := ["A"],
    hostFromId := fun h =>
      if h = "A" then some { inputDevices := some [devGood] } else none }

/-- A UI record currently holding a live stream handle. -/
def uiLive : AudiaUI :=
  { engine := engReady, current_stream := some { rx := 0 } }

/- ### Claims -/

/-- C1: for every sequence of packets fed to `Audia::update_state`, the
samples consumed into windows (`user_data`) plus the samples remaining
in the buffer equal the total samples ever appended; the emitted windows
each hold exactly `RECEIVE_PACKET_SIZE` samples and their concatenation
followed by the remaining buffer is exactly the concatenation of all
packets (oldest-first, non-overlapping: no sample dropped or
duplicated). -/
theorem C1_no_sample_loss (analyze : List Sample → List (Int × Sample))
    (ps : List (List Sample)) :
    (ps.foldl (updateState analyze) Spectrogram.new).user_data
        + (ps.foldl (updateState analyze) Spectrogram.new).current_buf.length
      = ps.flatten.length
    ∧ (ps.foldl (updateState analyze) Spectrogram.new).current_buf
        = (processPackets ps).2
    ∧ (processPackets ps).1.flatten ++ (processPackets ps).2 = ps.flatten
    ∧ (∀ w ∈ (processPackets ps).1, w.length = RECEIVE_PACKET_SIZE)
    ∧ ps.flatten.length
        = (processPackets ps).1.length * RECEIVE_PACKET_SIZE
          + (processPackets ps).2.length := by
  obtain ⟨h1, h2⟩ := processPackets_spec ps
  obtain ⟨f1, f2⟩ :=
    updateState_fold_tracks analyze ps Spectrogram.new [] (by simp [Spectrogram.new])
  have hpp : ps.foldl stepPW ([], Spectrogram.new.current_buf) = processPackets ps := rfl
  rw [hpp] at f1 f2
  have hlen : ps.flatten.length
      = (processPackets ps).1.length * RECEIVE_PACKET_SIZE
        + (processPackets ps).2.length := by
    have hc := congrArg List.length h1
    rw [List.length_append,
        join_length_of_uniform RECEIVE_PACKET_SIZE (processPackets ps).1 h2] at hc
    omega
  refine ⟨?_, f1, h1, h2, hlen⟩
  rw [f1, f2, hlen, Nat.mul_comm]

/-- C2 counterexample: with a session live (a current stream on channel
0) and a fully working device, `CpalEngine::start_recording` does not
return an already-recording error — no such error exists — but instead
builds a fresh stream over a fresh channel, replaces the live stream
(dropping it), and returns the new consumer handle. -/
theorem C2_counterexample :
    engLive.current_stream = some { chan := 0, playError := none }
    ∧ (start_recording engLive).2 = .ok { rx := 1 }
    ∧ (start_recording engLive).1.current_stream
        = some { chan := 1, playError := none } := by
  exact ⟨rfl, rfl, rfl⟩

/-- C2 (amended): the engine performs no already-recording check —
calling `start_recording` with a stream active succeeds (on a working
device), replacing the current stream with a freshly built one over a
fresh channel; the at-most-one-live-session behaviour is enforced only
by the UI layer, whose `start_streaming` leaves everything untouched
when it already holds a stream handle (it does not call the engine). -/
theorem C2_replaces_session (st : CpalEngine) (d : DeviceM) (s : StreamM)
    (hs : st.current_stream = some s)
    (hd : st.current_input_device = some d)
    (hc : d.hasDefaultInputConfig = true)
    (hb : d.buildError = none)
    (hp : d.playError = none) :
    (start_recording st).2 = .ok { rx := st.nextChan }
    ∧ (start_recording st).1.current_stream
        = some { chan := st.nextChan, playError := none }
    ∧ ∀ a : AudiaUI, a.current_stream.isSome → a.start_streaming = a := by
  refine ⟨?_, ?_, ?_⟩
  · simp [start_recording, hd, hc, hb, run_stream, hp]
  · simp [start_recording, hd, hc, hb, run_stream, hp]
  · intro a ha
    obtain ⟨s', hs'⟩ := Option.isSome_iff_exists.mp ha
    simp [AudiaUI.start_streaming, hs']

/-- Witness for C2: the amended statement applied to the concrete live
engine `engLive`. -/
theorem C2_replaces_session_witness :
    (start_recording engLive).2 = .ok { rx := 1 }
    ∧ (start_recording engLive).1.current_stream
        = some { chan := 1, playError := none }
    ∧ ∀ a : AudiaUI, a.current_stream.isSome → a.start_streaming = a :=
  C2_replaces_session engLive devGood { chan := 0, playError := none }
    rfl rfl rfl rfl rfl

/-- C3 counterexample: on a platform with hosts "A" and "B", host "A"
selected and a device selected, `use_host "B"` switches the host but the
device selection is preserved, not cleared to none as the claim
states. -/
theorem C3_counterexample :
    ("B" : String) ∈ hostAB.availableHosts
    ∧ engHostA.current_host = some "A"
    ∧ ("B" : String) ≠ "A"
    ∧ (use_host hostAB engHostA "B").current_host = some "B"
    ∧ (use_host hostAB engHostA "B").current_input_device = some devGood := by
  refine ⟨by decide, rfl, by decide, by rfl, rfl⟩

/-- C3 (amended): `CpalEngine::use_host` with the name of an enumerated
host switches the current host to it but never touches the input-device
selection (or the stream): the device selection is preserved, not
cleared. -/
theorem C3_host_switch_keeps_device (p : Platform) (st : CpalEngine) (n : String)
    (hn : n ∈ p.availableHosts) :
    (use_host p st n).current_input_device = st.current_input_device
    ∧ (use_host p st n).current_stream = st.current_stream
    ∧ (use_host p st n).current_host = some n := by
  refine ⟨rfl, rfl, ?_⟩
  exact foldl_select_mem n p.availableHosts st.current_host hn

/-- Witness for C3: switching from host "A" to host "B" on the concrete
two-host platform keeps the selected device. -/
theorem C3_host_switch_keeps_device_witness :
    (use_host hostAB engHostA "B").current_input_device
        = engHostA.current_input_device
    ∧ (use_host hostAB engHostA "B").current_stream = engHostA.current_stream
    ∧ (use_host hostAB engHostA "B").current_host = some "B" :=
  C3_host_switch_keeps_device hostAB engHostA "B" (by decide)

/-- C4: `CpalEngine::start_recording` fails with the no-input-device
error if and only if no device is selected; given a selected device it
fails with the config-unavailable error if and only if the device has no
usable default input configuration; given a default configuration it
fails with the stream-create error if and only if the platform refuses
to build the stream; and when everything succeeds it stores the freshly
built stream as current and returns the consumer side of the freshly
created channel (the channel counter's current value), advancing the
counter. -/
theorem C4_start_recording_errors (st : CpalEngine) :
    ((start_recording st).2 = .error .noInputDevice
      ↔ st.current_input_device = none)
    ∧ (∀ d : DeviceM, st.current_input_device = some d →
        (((start_recording st).2 = .error .configUnavailable)
          ↔ d.hasDefaultInputConfig = false)
        ∧ (d.hasDefaultInputConfig = true →
            ((∃ e, (start_recording st).2 = .error (.streamCreateFailed e))
              ↔ d.buildError ≠ none))
        ∧ (d.hasDefaultInputConfig = true → d.buildError = none →
            d.playError = none →
            (start_recording st).2 = .ok { rx := st.nextChan }
            ∧ (start_recording st).1.current_stream
                = some { chan := st.nextChan, playError := none }
            ∧ (start_recording st).1.nextChan = st.nextChan + 1)) := by
  cases hdev : st.current_input_device with
  | none =>
    refine ⟨by simp [start_recording, hdev], ?_⟩
    intro d hd
    exact absurd hd (by simp)
  | some d =>
    constructor
    · simp only [start_recording, hdev]
      cases hcfg : d.hasDefaultInputConfig with
      | false => simp
      | true =>
        cases hbe : d.buildError with
        | some e => simp
        | none =>
          cases hpe : d.playError with
          | some e => simp [run_stream, hpe]
          | none => simp [run_stream, hpe]
    · intro d' hd'
      injection hd' with hd'
      subst hd'
      refine ⟨?_, ?_, ?_⟩
      · simp only [start_recording, hdev]
        cases hcfg : d.hasDefaultInputConfig with
        | false => simp
        | true =>
          cases hbe : d.buildError with
          | some e => simp
          | none =>
            cases hpe : d.playError with
            | some e => simp [run_stream, hpe]
            | none => simp [run_stream, hpe]
      · intro hcfg
        simp only [start_recording, hdev, hcfg, if_true]
        cases hbe : d.buildError with
        | some e => simp
        | none =>
          cases hpe : d.playError with
          | some e => simp [run_stream, hpe]
          | none => simp [run_stream, hpe]
      · intro hcfg hbe hpe
        simp [start_recording, hdev, hcfg, hbe, run_stream, hpe]

/-- Witness for C4: the full statement instantiated at the concrete
ready engine, with the success branch evaluated: channel 5 is returned
and the counter moves to 6. -/
theorem C4_start_recording_errors_witness :
    ((start_recording engReady).2 = .error .noInputDevice
      ↔ engReady.current_input_device = none)
    ∧ ((start_recording engReady).2 = .ok { rx := 5 }
        ∧ (start_recording engReady).1.current_stream
            = some { chan := 5, playError := none }
        ∧ (start_recording engReady).1.nextChan = 6) := by
  have h := C4_start_recording_errors engReady
  exact ⟨h.1, ((h.2 devGood rfl).2.2 rfl rfl rfl)⟩

/-- C5 counterexample: a magnitude spectrum consisting of the single
pair (187 Hz, amplitude 0) — amplitudes in a magnitude spectrum are
non-negative and may all be zero (an all-zero window).  The source's
fold starts from the accumulator `(0, 0.0)`, which ties with every
zero amplitude and wins, so the extracted peak frequency is 0 even
though the first maximum-amplitude pair of the spectrum is at frequency
187: the claim's selection rule is violated. -/
theorem C5_counterexample :
    peakFold [((187 : Int), (0 : Sample))] = ((0 : Int), (0 : Sample))
    ∧ firstMaxPair [((187 : Int), (0 : Sample))]
        = some ((187 : Int), (0 : Sample))
    ∧ ((0 : Int) ≠ (187 : Int)) := by
  refine ⟨by decide, by decide, by decide⟩

/-- C5 (amended): whenever the spectrum contains at least one pair of
strictly positive amplitude, the source's fold returns exactly the
first (in ascending-frequency order) pair attaining the maximum
amplitude — ties are broken in favour of the earlier pair.  When every
amplitude is ≤ 0 the fold's initial `(0, 0.0)` accumulator wins instead
and frequency 0 is reported whether or not it belongs to the
spectrum. -/
theorem C5_peak_selection (points : List (Int × Sample))
    (h : ∃ p ∈ points, 0 < p.2) :
    some (peakFold points) = firstMaxPair points :=
  peakFold_eq_firstMax points h

/-- Witness for C5: on a concrete spectrum with an amplitude tie between
frequencies 200 and 300, the fold picks the earlier pair (200, 2). -/
theorem C5_peak_selection_witness :
    some (peakFold
        [((100 : Int), (1 : Sample)), ((200 : Int), (2 : Sample)),
         ((300 : Int), (2 : Sample))])
      = firstMaxPair
        [((100 : Int), (1 : Sample)), ((200 : Int), (2 : Sample)),
         ((300 : Int), (2 : Sample))]
    ∧ peakFold
        [((100 : Int), (1 : Sample)), ((200 : Int), (2 : Sample)),
         ((300 : Int), (2 : Sample))] = ((200 : Int), (2 : Sample)) := by
  constructor
  · exact C5_peak_selection _
      ⟨((100 : Int), (1 : Sample)), by simp, by norm_num⟩
  · decide

/-- C6: `CpalEngine::use_host` with a name matching no enumerated host
is a total no-op: the engine state — current host, current device, and
stream — is returned unchanged, and no error or panic occurs (the
function is total). -/
theorem C6_unknown_host_noop (p : Platform) (st : CpalEngine) (n : String)
    (hn : n ∉ p.availableHosts) :
    use_host p st n = st := by
  unfold use_host
  rw [foldl_select_not_mem n p.availableHosts st.current_host hn]

/-- Witness for C6: selecting "NoSuchHost" on the two-host platform
["A", "B"] leaves the engine untouched. -/
theorem C6_unknown_host_noop_witness :
    ("NoSuchHost" : String) ∉ hostAB.availableHosts
    ∧ use_host hostAB engHostA "NoSuchHost" = engHostA :=
  ⟨by decide, C6_unknown_host_noop hostAB engHostA "NoSuchHost" (by decide)⟩

/-- C7: `CpalEngine::stop_recording` is idempotent — a second
consecutive call produces the identical state — and calling it when no
stream is active is a no-op; the function returns unit, so no error can
be raised. -/
theorem C7_stop_recording_idempotent (st : CpalEngine) :
    stop_recording (stop_recording st) = stop_recording st
    ∧ (st.current_stream = none → stop_recording st = st) := by
  constructor
  · rfl
  · intro h
    cases st
    simp_all [stop_recording]

/-- Witness for C7: stopping the freshly created engine twice. -/
theorem C7_stop_recording_idempotent_witness :
    stop_recording (stop_recording CpalEngine.new) = stop_recording CpalEngine.new
    ∧ stop_recording CpalEngine.new = CpalEngine.new :=
  ⟨(C7_stop_recording_idempotent CpalEngine.new).1,
   (C7_stop_recording_idempotent CpalEngine.new).2 rfl⟩

/-- C8: multiplying every amplitude of the spectrum by the fixed display
multiplier 2048 before running the peak-extraction fold selects the same
frequency as running the fold on the unscaled amplitudes: the display
scaling does not affect peak selection ordering. -/
theorem C8_display_scaling_preserves_peak (points : List (Int × Sample)) :
    (peakFold (displayScale points)).1 = (peakFold points).1 := by
  have h := scale_fold 2048 (by norm_num) points ((0 : Int), (0 : Sample))
  have h0 : ((((0 : Int), (0 : Sample)).1), (((0 : Int), (0 : Sample)).2) * 2048)
      = ((0 : Int), (0 : Sample)) := by norm_num
  rw [h0] at h
  calc (peakFold (displayScale points)).1
      = ((points.map (fun p => (p.1, p.2 * 2048))).foldl
          (fun a b => if b.2 ≤ a.2 then a else b) ((0 : Int), (0 : Sample))).1 := rfl
    _ = (points.foldl (fun a b => if b.2 ≤ a.2 then a else b)
          ((0 : Int), (0 : Sample))).1 := by rw [h]
    _ = (peakFold points).1 := rfl

/-- C9 counterexample: with host "A" selected on a platform where "A"
does not resolve to a live backend handle, `get_input_devices` panics
(the source's `.expect("Could not open audio host")`) instead of
returning a typed `HostUnavailable` error — no such typed error exists
in the code, whose return type `Vec<String>` cannot carry an error at
all. -/
theorem C9_counterexample :
    pBad.hostFromId "A" = none
    ∧ engHostA.current_host = some "A"
    ∧ get_input_devices pBad engHostA = .error "Could not open audio host" :=
  ⟨rfl, rfl, rfl⟩

/-- C9 (amended): `get_input_devices` returns the ordered sequence of
device names of the currently selected host when the host resolves and
enumeration succeeds; when the host does not resolve to a live backend
handle (or device enumeration fails) the code panics via `.expect`
rather than returning a typed error. -/
theorem C9_device_listing (p : Platform) (st : CpalEngine) (hid : String)
    (h : st.current_host = some hid) :
    (p.hostFromId hid = none →
      get_input_devices p st = .error "Could not open audio host")
    ∧ (∀ host : HostM, p.hostFromId hid = some host →
        (host.inputDevices = none →
          get_input_devices p st = .error "Could not find input devices on host")
        ∧ (∀ ds : List DeviceM, host.inputDevices = some ds →
            get_input_devices p st
              = .ok (ds.map (fun d => d.name.getD "No device name")))) := by
  refine ⟨fun h2 => ?_, fun host h2 => ⟨fun h3 => ?_, fun ds h3 => ?_⟩⟩
  · simp only [get_input_devices, h, h2]
  · simp only [get_input_devices, h, h2, h3]
  · simp only [get_input_devices, h, h2, h3]

/-- Witness for C9: the good platform lists the single device name
"Mic", and the bad platform panics. -/
theorem C9_device_listing_witness :
    get_input_devices pGood engHostA = .ok ["Mic"]
    ∧ get_input_devices pBad engHostA = .error "Could not open audio host" := by
  constructor
  · have h := ((C9_device_listing pGood engHostA "A" rfl).2
      { inputDevices := some [devGood] } rfl).2 [devGood] rfl
    simpa [devGood] using h
  · exact (C9_device_listing pBad engHostA "A" rfl).1 rfl

/-- C10: with no host selected, `get_input_devices` returns the empty
list for every platform state — it neither fails nor consults the
platform — and `use_input_device` returns the engine state unchanged
(no panic, selection preserved). -/
theorem C10_no_host_selected (p : Platform) (st : CpalEngine) (n : String)
    (h : st.current_host = none) :
    get_input_devices p st = .ok []
    ∧ use_input_device p st n = .ok st := by
  unfold get_input_devices use_input_device
  rw [h]
  exact ⟨rfl, rfl⟩

/-- Witness for C10: the fresh engine with the unresolvable platform
still lists no devices and keeps its (empty) device selection. -/
theorem C10_no_host_selected_witness :
    get_input_devices pBad CpalEngine.new = .ok []
    ∧ use_input_device pBad CpalEngine.new "Mic" = .ok CpalEngine.new :=
  C10_no_host_selected pBad CpalEngine.new "Mic" rfl

end Audia
